import Mathlib

/-!
Verification development for the research-data staging repository.

The definitions below are a shallow embedding of the Python source:
  * src/models.py   (Record, ProcessingError, LookupTables.get_tax_cat_code)
  * src/mapper.py   (RowMapper: taxable/percent parsing, tax-category
                     resolution, row-to-record conversion, tax-type
                     expansion, error accumulation, admin filtering)
  * src/product_code_mapper.py (ProductCodeMapper._normalize_research_id)
  * src/worker.py   (SheetWorker: hierarchical-id parsing, hierarchical
                     description composition, product-item admin filter)
  * src/orchestrator.py (ResearchDataOrchestrator._create_csv_content)

Spreadsheet cells are modelled as String, dictionaries as association
lists (List (k × v) with List.lookup) or as finitely-updated functions,
Python Decimal values as exact decimal pairs, and the error accumulators on
the RowMapper instance modelled by explicit state passing.
-/

/-- Embeds models.ProcessingError: a processing error with file name,
message and error type. -/
structure ProcessingError where
  file_name : String
  error_message : String
  error_type : String
deriving DecidableEq, Repr

/-- Embeds models.Record: one line item of the matrix_update.csv output.
Field order follows the source constructor. -/
structure Record where
  geocode : String
  tax_auth_id : String
  group : String
  item : String
  customer : String
  provider : String
  transaction : String
  taxable : Int
  tax_type : String
  tax_cat : String
  effective : String
  per_taxable_type : String
  percent_taxable : String
deriving DecidableEq, Repr

/-- Embeds config.Config, restricted to the fields the mapper reads. -/
structure Config where
  effective_date : String
  admin_filter_value : String
deriving DecidableEq, Repr

/-- models.CustomerType.BUSINESS.value -/
def customerBusiness : String := "0B"

/-- models.CustomerType.PERSONAL.value -/
def customerPersonal : String := "99"

/-- models.GroupType.DEFAULT.value -/
def groupDefault : String := "7777"

/-- models.ProviderType.DEFAULT.value -/
def providerDefault : String := "99"

/-- models.TransactionType.DEFAULT.value -/
def transactionDefault : String := "01"

/-- models.TaxType.DEFAULT.value (the placeholder tax type on templates) -/
def taxTypeDefault : String := "01"

/-- models.PerTaxableType.DEFAULT.value -/
def perTaxableDefault : String := "01"

/-- Embeds Python str.strip(): drop whitespace from both ends. -/
def pyStrip (s : String) : String :=
  String.mk
    (((s.toList.dropWhile Char.isWhitespace).reverse.dropWhile
      Char.isWhitespace).reverse)

/-- Embeds Python str.upper() on the ASCII text this program handles. -/
def pyUpper (s : String) : String :=
  String.mk (s.toList.map Char.toUpper)

/-- Split a character list on a separator character; the result always
has at least one (possibly empty) group. -/
def splitOnCharList (cs : List Char) (sep : Char) : List (List Char) :=
  match cs with
  | [] => [[]]
  | c :: rest =>
    match splitOnCharList rest sep with
    | [] => [[c]]
    | g :: gs => if c = sep then [] :: g :: gs else (c :: g) :: gs

/-- Embeds Python str.split('.'): the empty string yields [""] and a
separator at either end yields an empty segment, as in Python. -/
def pySplitDot (s : String) : List String :=
  (splitOnCharList s.toList '.').map (fun cs => String.mk cs)

/-- Embeds RowMapper._get_cell_value: safely get a stripped cell value
from a row by (optional) index, empty string when the index is absent or
out of range. -/
def getCellValue (row : List String) (index : Option Nat) : String :=
  match index with
  | none => ""
  | some i => if h : i < row.length then pyStrip (row.get ⟨i, h⟩) else ""

/-- Embeds RowMapper.taxable_mappings (insertion order of the source
dict). -/
def taxableMappings : List (String × Int) :=
  [("NOT TAXABLE", 0), ("NONTAXABLE", 0), ("EXEMPT", 0), ("TAXABLE", 1)]

/-- Embeds RowMapper.uncertain_taxable_values. -/
def uncertainTaxableValues : List String := ["DRILL DOWN", "TO RESEARCH"]

/-- The error message built in RowMapper._parse_taxable_value for a truly
unknown value (the Python f-string rendered with the two vocabularies). -/
def unknownTaxableMsg (text upper : String) : String :=
  "Unknown taxable value '" ++ text ++ "' (normalized: '" ++ upper ++
    "'). Known values: ['NOT TAXABLE', 'NONTAXABLE', 'EXEMPT', 'TAXABLE']. " ++
    "Uncertain values (skipped): ['DRILL DOWN', 'TO RESEARCH']"

/-- Embeds RowMapper._parse_taxable_value.  The source appends errors to
self.processing_errors via self._add_error; here the errors produced by
the call are returned as the second component. -/
def parseTaxableValue (taxableText : String) (filename : String) :
    Option Int × List ProcessingError :=
  if taxableText = "" then (none, [])
  else
    let taxableUpper := pyStrip (pyUpper taxableText)
    match taxableMappings.lookup taxableUpper with
    | some v => (some v, [])
    | none =>
      if uncertainTaxableValues.contains taxableUpper then (none, [])
      else
        (none, [⟨filename, unknownTaxableMsg taxableText taxableUpper,
                "UnknownTaxableValueError"⟩])

/-- Model of a Python Decimal value as an exact decimal: the represented
number is num / 10 ^ shift.  Two Decimals with different textual forms
("0.5" vs "0.50") are distinct representations of equal value, exactly as
in the decimal module. -/
structure Dec where
  num : Int
  shift : Nat
deriving DecidableEq, Repr

/-- Python Decimal __eq__ (numeric equality of the represented values). -/
def Dec.eqv (a b : Dec) : Bool :=
  a.num * (10 : Int) ^ b.shift == b.num * (10 : Int) ^ a.shift

/-- Python Decimal division by 100: shifts the exponent by two (exact for
the operands this program produces). -/
def Dec.div100 (a : Dec) : Dec := { a with shift := a.shift + 2 }

/-- Value of a digit list, most significant first. -/
def digitsToNat (cs : List Char) : Nat :=
  cs.foldl (fun acc c => 10 * acc + c.toNat - '0'.toNat) 0

/-- Model of the Python Decimal constructor on the numeric strings this
program feeds it: optional sign, then digits with an optional single
decimal point (at least one digit overall); anything else raises
InvalidOperation, modelled as none.  (Exponent and special forms never
occur in the percent columns.) -/
def parseDecimalCore (cs : List Char) : Option Dec :=
  let intPart := cs.takeWhile Char.isDigit
  let rest := cs.dropWhile Char.isDigit
  match rest with
  | [] =>
    if intPart.isEmpty then none
    else some { num := (digitsToNat intPart : Int), shift := 0 }
  | '.' :: frac =>
    if frac.all Char.isDigit ∧ ¬(intPart.isEmpty ∧ frac.isEmpty) then
      some { num := (digitsToNat (intPart ++ frac) : Int), shift := frac.length }
    else none
  | _ => none

/-- Sign handling of the Decimal constructor model. -/
def parseDecimal (s : String) : Option Dec :=
  match s.toList with
  | '+' :: cs => parseDecimalCore cs
  | '-' :: cs => (parseDecimalCore cs).map (fun d => { d with num := -d.num })
  | cs => parseDecimalCore cs

/-- Embeds str.replace(c, '') : removes every occurrence of a character. -/
def removeChar (s : String) (c : Char) : String :=
  String.mk (s.toList.filter (fun x => x ≠ c))

/-- Embeds RowMapper._parse_percent_taxable: empty text yields none; text
containing a '%' is stripped, has every '%' removed and is divided by
100; otherwise the trimmed text is parsed as an already-fractional
decimal.  A Decimal parse failure yields none. -/
def parsePercentTaxable (percentText : String) : Option Dec :=
  if percentText = "" then none
  else if percentText.toList.contains '%' then
    (parseDecimal (removeChar (pyStrip percentText) '%')).map Dec.div100
  else
    parseDecimal (pyStrip percentText)

/-- Embeds LookupTables.get_tax_cat_code: Python
tax_cat_lookup.get(text, text) — on a miss the lookup returns the input
text itself, not None. -/
def lookupTablesGetTaxCatCode (taxCatLookup : List (String × String))
    (taxCatText : String) : String :=
  (taxCatLookup.lookup taxCatText).getD taxCatText

/-- Embeds RowMapper._get_tax_cat_code.  The source's
"if code is None: return '00'" branch is unreachable because
LookupTables.get_tax_cat_code always returns a string (its default
argument is the input text), so it is omitted here. -/
def getTaxCatCodeMapper (taxCatLookup : List (String × String))
    (taxCatDesc : String) : String :=
  if taxCatDesc = "" then "00"
  else lookupTablesGetTaxCatCode taxCatLookup taxCatDesc

/-- Round n / d to the nearest integer with ties to even (d positive),
the rounding mode of Python Decimal formatting. -/
def roundHalfEvenInt (n : Int) (d : Nat) : Int :=
  let q := Int.fdiv n (d : Int)
  let r := n - q * (d : Int)
  if 2 * r < (d : Int) then q
  else if 2 * r > (d : Int) then q + 1
  else if q % 2 = 0 then q else q + 1

/-- Left-pad a string with '0' to the given length. -/
def padZeros (s : String) (n : Nat) : String :=
  String.mk (List.replicate (n - s.length) '0') ++ s

/-- Embeds the Python format spec ".6f" applied to a Decimal percent:
six fractional digits, half-even rounding. -/
def formatPercent6 (dec : Dec) : String :=
  let scaled := roundHalfEvenInt (dec.num * 1000000) (10 ^ dec.shift)
  let sign := if scaled < 0 then "-" else ""
  let a := scaled.natAbs
  sign ++ toString (a / 1000000) ++ "." ++ padZeros (toString (a % 1000000)) 6

/-- Builds the Record that RowMapper.convert_row_to_records constructs:
all constant defaults, the given geocode/item/customer and the parsed
segment values, percent formatted to six decimals. -/
def mkSegmentRecord (geocode currentId customer : String) (taxable : Int)
    (taxCat : String) (percent : Dec) (config : Config) : Record :=
  { geocode := geocode
    tax_auth_id := ""
    group := groupDefault
    item := currentId
    customer := customer
    provider := providerDefault
    transaction := transactionDefault
    taxable := taxable
    tax_type := taxTypeDefault
    tax_cat := taxCat
    effective := config.effective_date
    per_taxable_type := perTaxableDefault
    percent_taxable := formatPercent6 percent }

/-- Embeds RowMapper.convert_row_to_records.  Returns the
(business, personal) record pair together with the data-quality errors
the call appends to self.processing_errors.  The source guards the
parsing of each segment behind "if business_use:" / "if personal_use:";
the guard is omitted because on empty text both parsers return none
without recording an error, and the tax-category resolution is pure, so
the observable outcome is identical. -/
def convertRowToRecords (taxCatLookup : List (String × String))
    (row : List String) (headerMap : String → Option Nat) (geocode : String)
    (config : Config) (filename : String) :
    (Option Record × Option Record) × List ProcessingError :=
  let currentId := getCellValue row (headerMap "current_id")
  if currentId = "" then ((none, none), [])
  else
    let businessUse := getCellValue row (headerMap "business_use")
    let businessTaxCatDesc := getCellValue row (headerMap "business_tax_cat")
    let businessPercentTax := getCellValue row (headerMap "business_percent_tax")
    let personalUse := getCellValue row (headerMap "personal_use")
    let personalTaxCatDesc := getCellValue row (headerMap "personal_tax_cat")
    let personalPercentTax := getCellValue row (headerMap "personal_percent_tax")
    let bParsed := parseTaxableValue businessUse filename
    let businessPercent := parsePercentTaxable businessPercentTax
    let businessTaxCatCode := getTaxCatCodeMapper taxCatLookup businessTaxCatDesc
    let pParsed := parseTaxableValue personalUse filename
    let personalPercent := parsePercentTaxable personalPercentTax
    let personalTaxCatCode := getTaxCatCodeMapper taxCatLookup personalTaxCatDesc
    let errs := bParsed.2 ++ pParsed.2
    match bParsed.1, businessPercent, pParsed.1, personalPercent with
    | some bt, some bp, some pt, some pp =>
      -- both segments valid: deduplication on the treatment triple
      if bt = pt ∧ businessTaxCatCode = personalTaxCatCode ∧ Dec.eqv bp pp then
        ((none, some (mkSegmentRecord geocode currentId customerPersonal
            pt personalTaxCatCode pp config)), errs)
      else
        ((some (mkSegmentRecord geocode currentId customerBusiness
            bt businessTaxCatCode bp config),
          some (mkSegmentRecord geocode currentId customerPersonal
            pt personalTaxCatCode pp config)), errs)
    | some bt, some bp, _, _ =>
      ((some (mkSegmentRecord geocode currentId customerBusiness
          bt businessTaxCatCode bp config), none), errs)
    | _, _, some pt, some pp =>
      ((none, some (mkSegmentRecord geocode currentId customerPersonal
          pt personalTaxCatCode pp config)), errs)
    | _, _, _, _ => ((none, none), errs)

/-- The templates actually emitted by a (business, personal) result pair,
business first, in source order. -/
def emittedTemplates (pair : Option Record × Option Record) : List Record :=
  pair.1.toList ++ pair.2.toList

/-- State of RowMapper.missing_tax_type_issues: the nested dicts
{filename: {(geocode, tax_cat): [record items]}} modelled as a function
with default [] (the source creates missing keys with [] before
appending). -/
def IssueMap : Type := String → String × String → List String

/-- The empty issue dict. -/
def emptyIssues : IssueMap := fun _ _ => []

/-- Embeds RowMapper._track_missing_tax_type_issue: append the record
item under (filename, (geocode, tax_cat)). -/
def trackMissingTaxTypeIssue (issues : IssueMap) (filename geocode taxCat
    recordItem : String) : IssueMap :=
  fun f k =>
    if f = filename ∧ k = (geocode, taxCat) then issues f k ++ [recordItem]
    else issues f k

/-- Embeds RowMapper._expand_records_by_tax_types.  The collaborator
lookup_tables.get_tax_types_with_hierarchy_fallback is passed in as the
function argument taxTypeLookup; the geocode parameter is kept although,
as in the source, the expansion keys the lookup and the issue tracking on
each record's own geocode field.  Mutation of
self.missing_tax_type_issues is modelled by threading the issue map. -/
def expandRecordsByTaxTypes
    (taxTypeLookup : String → String → Option (List String))
    (records : List (Option Record)) (geocode : String) (filename : String)
    (issues : IssueMap) : List Record × IssueMap :=
  match records with
  | [] => ([], issues)
  | none :: rest =>
    expandRecordsByTaxTypes taxTypeLookup rest geocode filename issues
  | some r :: rest =>
    match taxTypeLookup r.geocode r.tax_cat with
    | none =>
      expandRecordsByTaxTypes taxTypeLookup rest geocode filename
        (trackMissingTaxTypeIssue issues filename r.geocode r.tax_cat r.item)
    | some taxTypes =>
      let expanded := taxTypes.map (fun t => { r with tax_type := t })
      let restResult :=
        expandRecordsByTaxTypes taxTypeLookup rest geocode filename issues
      (expanded ++ restResult.1, restResult.2)

/-- Mutable accumulator state held on the RowMapper instance
(self.processing_errors and self.missing_tax_type_issues). -/
structure MapperSt where
  processing_errors : List ProcessingError
  missing_tax_type_issues : IssueMap

/-- Embeds RowMapper._clear_errors, run at the start of
process_sheet_rows for every file processed through the shared mapper. -/
def clearErrors (_s : MapperSt) : MapperSt :=
  { processing_errors := [], missing_tax_type_issues := emptyIssues }

/-- Embeds RowMapper._add_error: append one error to the instance's
shared accumulator. -/
def addError (s : MapperSt) (filename errorMessage errorType : String) :
    MapperSt :=
  { s with processing_errors :=
      s.processing_errors ++ [⟨filename, errorMessage, errorType⟩] }

/-- Running RowMapper._parse_taxable_value against the instance state:
the errors the parse produces are appended to the shared
processing_errors field via _add_error. -/
def runParseTaxableValue (s : MapperSt) (taxableText filename : String) :
    Option Int × MapperSt :=
  let r := parseTaxableValue taxableText filename
  (r.1, { s with processing_errors := s.processing_errors ++ r.2 })

/-- Pop trailing segments equal to "0" (the while-loop of
ProductCodeMapper._normalize_research_id). -/
def dropTrailingZeroSegments (parts : List String) : List String :=
  (parts.reverse.dropWhile (fun p => p == "0")).reverse

/-- Embeds ProductCodeMapper._normalize_research_id: split the trimmed id
on '.', pop trailing "0" segments, rejoin; if every segment was popped,
return the trimmed original id unchanged. -/
def normalizeResearchId (researchId : String) : String :=
  if researchId = "" then ""
  else
    let parts := pySplitDot (pyStrip researchId)
    let stripped := dropTrailingZeroSegments parts
    if stripped.isEmpty then pyStrip researchId
    else String.intercalate "." stripped

/-- Embeds the padding step of SheetWorker._parse_hierarchical_id: pad
the split segments with "0" to 8 parts, then keep the first 8. -/
def padTo8Segments (parts : List String) : List String :=
  (parts ++ List.replicate (8 - parts.length) "0").take 8

/-- Embeds SheetWorker._parse_hierarchical_id: for each level 1..7 whose
segment is non-"0", keep the first level segments, zero the rest, and
collect the resulting parent id unless it equals the original id. -/
def parseHierarchicalId (itemId : String) : List String :=
  let parts := padTo8Segments (pySplitDot itemId)
  (List.range' 1 7).filterMap (fun level =>
    if parts.getD level "" = "0" then none
    else
      let parentId :=
        String.intercalate "." (parts.take level ++ List.replicate (8 - level) "0")
      if parentId = itemId then none else some parentId)

/-- The per-id text rule of SheetWorker._build_hierarchical_description:
lookup_dict.get(id, "").strip(), replaced by a single space when missing
or empty. -/
def descTextOrSpace (lookupDict : List (String × String)) (id : String) :
    String :=
  let d := pyStrip ((lookupDict.lookup id).getD "")
  if d ≠ "" then d else " "

/-- Embeds SheetWorker._build_hierarchical_description: parent texts
(shallowest first), then the target id's own text, each empty/missing
replaced by a single space, joined with " | ". -/
def buildHierarchicalDescription (itemId : String)
    (lookupDict : List (String × String)) : String :=
  let parentIds := parseHierarchicalId itemId
  String.intercalate " | "
    (parentIds.map (descTextOrSpace lookupDict) ++
      [descTextOrSpace lookupDict itemId])

/-- Embeds Record.csv_headers: the 13 header names, already wrapped in
double quotes, in the exact source order. -/
def csvHeaders : List String :=
  ["\"geocode\"", "\"tax_auth_id\"", "\"group\"", "\"item\"", "\"customer\"",
   "\"provider\"", "\"transaction\"", "\"taxable\"", "\"tax_type\"",
   "\"tax_cat\"", "\"effective\"", "\"per_taxable_type\"",
   "\"percent_taxable\""]

/-- Wrap a field value in double quotes verbatim, as the f-strings of
Record.to_csv_row do (no escaping of quotes inside the value). -/
def quoteVerbatim (v : String) : String := "\"" ++ v ++ "\""

/-- Embeds Record.to_csv_row: the 13 field values in source order, each
wrapped in double quotes verbatim. -/
def toCsvRow (r : Record) : List String :=
  [quoteVerbatim r.geocode, quoteVerbatim r.tax_auth_id,
   quoteVerbatim r.group, quoteVerbatim r.item, quoteVerbatim r.customer,
   quoteVerbatim r.provider, quoteVerbatim r.transaction,
   quoteVerbatim (toString r.taxable), quoteVerbatim r.tax_type,
   quoteVerbatim r.tax_cat, quoteVerbatim r.effective,
   quoteVerbatim r.per_taxable_type, quoteVerbatim r.percent_taxable]

/-- Embeds ResearchDataOrchestrator._create_csv_content: the
comma-joined header line then one comma-joined line per record, each
line terminated by a newline. -/
def createCsvContent (records : List Record) : String :=
  String.intercalate "," csvHeaders ++ "\n" ++
    String.join (records.map (fun r =>
      String.intercalate "," (toCsvRow r) ++ "\n"))

/-- Embeds the admin filter of RowMapper._process_rows_for_geocode: the
row is processed unless admin_value.upper() differs from
config.admin_filter_value.upper(). -/
def matrixRowSelected (row : List String) (adminIndex : Option Nat)
    (filterValue : String) : Bool :=
  pyUpper (getCellValue row adminIndex) == pyUpper filterValue

/-- Embeds the admin filter of
SheetWorker._extract_product_items_from_rows: the row is kept only when
the trimmed admin cell equals config.admin_filter_value exactly
(case-sensitive).  The cell access str(row[idx]).strip()-with-default-""
coincides with RowMapper._get_cell_value on string cells. -/
def productRowSelected (row : List String) (adminIndex : Nat)
    (filterValue : String) : Bool :=
  getCellValue row (some adminIndex) == filterValue

/-- Modelled from the spec: LookupTables._construct_parent_geocode is
called by tests and by get_tax_types_with_hierarchy_fallback but its
definition is not under src/.  Per spec section 4.2 and the glossary, the
parent of a 12-character geocode is the state-level geocode obtained by
keeping the leading country-and-state prefix (4 characters) and zeroing
the district suffix, zero-filled to 12 characters. -/
def constructParentGeocode (geocode : String) : String :=
  let p := geocode.take 4
  p ++ String.mk (List.replicate (12 - p.length) '0')

/-- Modelled from the spec: LookupTables.get_tax_types_with_hierarchy_fallback
(called in RowMapper._expand_records_by_tax_types) is not defined under
src/.  Per spec section 4.2: lookups are case-insensitive and
whitespace-trimmed on both key components; the exact geocode is tried
first; if absent the parent geocode is derived and retried once; child
and parent results are never merged. -/
def getTaxTypesWithHierarchyFallback
    (taxTypeTable : List ((String × String) × List String))
    (geocode taxCat : String) : Option (List String) :=
  let g := pyUpper (pyStrip geocode)
  let c := pyUpper (pyStrip taxCat)
  match taxTypeTable.lookup (g, c) with
  | some taxTypes => some taxTypes
  | none =>
    let parent := constructParentGeocode g
    if parent = g then none
    else taxTypeTable.lookup (parent, c)

/-- The parent-id derivation exactly as the specification words it: one
parent for each cut point (non-empty proper prefix of the 8 segments,
remaining segments zeroed) whose KEPT FINAL segment is non-zero, ordered
shallowest first, excluding the target id itself. -/
def claimParentsKeptSegment (itemId : String) : List String :=
  let parts := padTo8Segments (pySplitDot itemId)
  (List.range' 1 7).filterMap (fun k =>
    if parts.getD (k - 1) "" = "0" then none
    else
      let parentId :=
        String.intercalate "." (parts.take k ++ List.replicate (8 - k) "0")
      if parentId = itemId then none else some parentId)

/-- The description composition exactly as the claim words it, built on
the claimed parent rule. -/
def claimHierarchicalDescription (itemId : String)
    (lookupDict : List (String × String)) : String :=
  String.intercalate " | "
    ((claimParentsKeptSegment itemId).map (descTextOrSpace lookupDict) ++
      [descTextOrSpace lookupDict itemId])

/-- The amended parent rule: one parent for each cut point whose FIRST
ZEROED segment (the segment immediately after the cut) is non-zero,
ordered shallowest first, excluding the target id itself. -/
def amendedParentsNextSegment (itemId : String) : List String :=
  let parts := padTo8Segments (pySplitDot itemId)
  (List.range' 1 7).filterMap (fun k =>
    let parentId :=
      String.intercalate "." (parts.take k ++ List.replicate (8 - k) "0")
    if parts.getD k "" ≠ "0" ∧ parentId ≠ itemId then some parentId else none)

/-- The description composition of the amended claim, built on the
amended parent rule. -/
def amendedHierarchicalDescription (itemId : String)
    (lookupDict : List (String × String)) : String :=
  String.intercalate " | "
    ((amendedParentsNextSegment itemId).map (descTextOrSpace lookupDict) ++
      [descTextOrSpace lookupDict itemId])

/-- Double every double-quote character of a field value (the CSV quote
escaping the claim asserts). -/
def escapeQuotes (v : String) : String :=
  String.mk (v.toList.foldr
    (fun c acc => if c = '"' then '"' :: '"' :: acc else c :: acc) [])

/-- The 13 field values of a Record in the order the claim lists. -/
def recordFieldValues (r : Record) : List String :=
  [r.geocode, r.tax_auth_id, r.group, r.item, r.customer, r.provider,
   r.transaction, toString r.taxable, r.tax_type, r.tax_cat, r.effective,
   r.per_taxable_type, r.percent_taxable]

/-- The 13 header names in the order the claim lists. -/
def claimHeaderNames : List String :=
  ["geocode", "tax_auth_id", "group", "item", "customer", "provider",
   "transaction", "taxable", "tax_type", "tax_cat", "effective",
   "per_taxable_type", "percent_taxable"]

/-- The Record CSV exactly as the claim describes it: every header name
and every field value individually wrapped in double quotes with internal
double quotes doubled, fields comma-joined in the claimed order, one line
per record after the header line. -/
def claimCsvContent (records : List Record) : String :=
  String.intercalate ","
      (claimHeaderNames.map (fun h => "\"" ++ escapeQuotes h ++ "\"")) ++
    "\n" ++
    String.join (records.map (fun r =>
      String.intercalate ","
          ((recordFieldValues r).map (fun v => "\"" ++ escapeQuotes v ++ "\"")) ++
        "\n"))

/-- The Record CSV of the amended claim: identical to the claimed format
except that field values are emitted verbatim between their wrapping
quotes (internal double quotes are NOT doubled). -/
def amendedCsvContent (records : List Record) : String :=
  String.intercalate ","
      (claimHeaderNames.map (fun h => "\"" ++ h ++ "\"")) ++
    "\n" ++
    String.join (records.map (fun r =>
      String.intercalate ","
          ((recordFieldValues r).map (fun v => "\"" ++ v ++ "\"")) ++
        "\n"))

/-- A Record whose item value contains a double-quote character, as a
sheet cell can. -/
def quoteItemRecord : Record :=
  { geocode := "US1700000000", tax_auth_id := "", group := "7777",
    item := "1.\"1", customer := "99", provider := "99",
    transaction := "01", taxable := 1, tax_type := "01", tax_cat := "01",
    effective := "1999-01-01", per_taxable_type := "01",
    percent_taxable := "1.000000" }

/-- Concurrency scenario of orchestrator.process_all_sheets: the single
RowMapper instance built in ResearchDataOrchestrator.__init__ is passed
to process_sheets_concurrently, so every in-flight file invocation shares
one MapperSt.  The shared state after file A's process_sheet_rows has run
_clear_errors. -/
def sharedAfterClearA : MapperSt :=
  clearErrors { processing_errors := [], missing_tax_type_issues := emptyIssues }

/-- The shared state after file A's invocation has recorded a
data-quality error (an unknown taxable value) into the shared
processing_errors accumulator. -/
def sharedAfterErrorA : MapperSt :=
  (runParseTaxableValue sharedAfterClearA "Maybe Taxed" "fileA").2

/-- The shared state after file B's in-flight invocation has started and
run _clear_errors on the same shared instance, before file A's invocation
has read back self.processing_errors. -/
def sharedAfterClearB : MapperSt := clearErrors sharedAfterErrorA

/-- C4: the claim asserts that every non-empty tax-category description
with no entry in the reference table resolves to the sentinel code "00".
The code instead returns the description text itself, because
LookupTables.get_tax_cat_code defaults to its input text, which makes the
"00" fallback branch of RowMapper._get_tax_cat_code dead; only the empty
description yields "00".  Evaluation at the failing input. -/
theorem c4_unmapped_description_passthrough :
    getTaxCatCodeMapper [("General Sales Tax", "01")] "UNKNOWN CATEGORY" =
      "UNKNOWN CATEGORY" ∧
    ("UNKNOWN CATEGORY" : String) ≠ "00" ∧
    getTaxCatCodeMapper [("General Sales Tax", "01")] "" = "00" := by decide

/-- C8: the claim asserts no error accumulation of one in-flight file
invocation is held in mutable state writable by another.  The code keeps
processing_errors on the single RowMapper instance the orchestrator
shares across concurrent workers, and _clear_errors runs at the start of
every file's call: after file A records a data-quality error in the
shared accumulator, file B's in-flight clear empties the very list A
returns, so A's error is lost under this interleaving. -/
theorem c8_shared_accumulator_interference :
    sharedAfterErrorA.processing_errors ≠ [] ∧
    sharedAfterErrorA.processing_errors.map ProcessingError.file_name =
      ["fileA"] ∧
    sharedAfterClearB.processing_errors = [] := by decide

/-- C7 counterexample: for the id "0.1.0.0.0.0.0.0" (leading segment
zero) the code derives the all-zero parent "0.0.0.0.0.0.0.0" (its cut
point is kept because the segment AFTER the cut is non-zero), while the
claim's rule (kept final segment non-zero) derives no parent at all, so
the composed descriptions differ. -/
theorem c7_counterexample :
    buildHierarchicalDescription "0.1.0.0.0.0.0.0" [] ≠
      claimHierarchicalDescription "0.1.0.0.0.0.0.0" [] := by decide

set_option maxRecDepth 40000 in
/-- C9 counterexample: for a record whose item field contains a double
quote, the emitted CSV does not double the internal quote, unlike the
claimed format. -/
theorem c9_counterexample :
    createCsvContent [quoteItemRecord] ≠ claimCsvContent [quoteItemRecord] := by
  decide

/-- C10: a row whose admin cell matches the configured filter value only
up to letter case is selected by the matrix-record path (which uppercases
both sides) and skipped by the product-item extraction path (which
compares exactly). -/
theorem c10_admin_filter_divergence (row : List String) (adminIdx : Nat)
    (filterValue a : String)
    (ha : getCellValue row (some adminIdx) = a)
    (hupper : pyUpper a = pyUpper filterValue)
    (hne : a ≠ filterValue) :
    matrixRowSelected row (some adminIdx) filterValue = true ∧
    productRowSelected row adminIdx filterValue = false := by
  constructor
  · simp [matrixRowSelected, ha, hupper]
  · simp [productRowSelected, ha, hne]

/-- Witness for C10 at a concrete row: the cell "TAG LEVEL" against the
filter "Tag Level". -/
theorem c10_admin_filter_divergence_witness :
    matrixRowSelected ["TAG LEVEL"] (some 0) "Tag Level" = true ∧
    productRowSelected ["TAG LEVEL"] 0 "Tag Level" = false :=
  c10_admin_filter_divergence ["TAG LEVEL"] 0 "Tag Level" "TAG LEVEL"
    (by decide) (by decide) (by decide)

/-- C2: tax-type expansion of a template at the head of the record list:
when the hierarchy lookup resolves tax types for (template's geocode,
template's tax category), exactly one Record per resolved code is
emitted, each equal to the template except for tax_type, and the issue
map is untouched; when nothing resolves, the template contributes no
Records and the missing-tax-type issue map gains the template's item id
under the (geocode, tax category) key. -/
theorem c2_tax_type_expansion
    (taxTypeLookup : String → String → Option (List String)) (r : Record)
    (rest : List (Option Record)) (geocode filename : String)
    (issues : IssueMap) :
    (∀ ts, taxTypeLookup r.geocode r.tax_cat = some ts →
      expandRecordsByTaxTypes taxTypeLookup (some r :: rest) geocode filename
          issues =
        ((ts.map fun t => { r with tax_type := t }) ++
          (expandRecordsByTaxTypes taxTypeLookup rest geocode filename
            issues).1,
         (expandRecordsByTaxTypes taxTypeLookup rest geocode filename
           issues).2)) ∧
    (taxTypeLookup r.geocode r.tax_cat = none →
      expandRecordsByTaxTypes taxTypeLookup (some r :: rest) geocode filename
          issues =
        expandRecordsByTaxTypes taxTypeLookup rest geocode filename
          (trackMissingTaxTypeIssue issues filename r.geocode r.tax_cat
            r.item) ∧
      trackMissingTaxTypeIssue issues filename r.geocode r.tax_cat r.item
          filename (r.geocode, r.tax_cat) =
        issues filename (r.geocode, r.tax_cat) ++ [r.item]) := by
  constructor
  · intro ts h
    simp [expandRecordsByTaxTypes, h]
  · intro h
    constructor
    · simp [expandRecordsByTaxTypes, h]
    · simp [trackMissingTaxTypeIssue]

/-- Witness for C2: a single template with geocode US1700000000 and
category 01 against a lookup resolving three tax types expands into
exactly three records differing only in tax_type. -/
theorem c2_tax_type_expansion_witness :
    expandRecordsByTaxTypes
        (fun g c =>
          if g = "US1700000000" ∧ c = "01" then some ["01", "02", "47"]
          else none)
        [some
          { geocode := "US1700000000", tax_auth_id := "", group := "7777",
            item := "1.1", customer := "99", provider := "99",
            transaction := "01", taxable := 1, tax_type := "01",
            tax_cat := "01", effective := "1999-01-01",
            per_taxable_type := "01", percent_taxable := "1.000000" }]
        "US1700000000" "f" emptyIssues =
      ([{ geocode := "US1700000000", tax_auth_id := "", group := "7777",
          item := "1.1", customer := "99", provider := "99",
          transaction := "01", taxable := 1, tax_type := "01",
          tax_cat := "01", effective := "1999-01-01",
          per_taxable_type := "01", percent_taxable := "1.000000" },
        { geocode := "US1700000000", tax_auth_id := "", group := "7777",
          item := "1.1", customer := "99", provider := "99",
          transaction := "01", taxable := 1, tax_type := "02",
          tax_cat := "01", effective := "1999-01-01",
          per_taxable_type := "01", percent_taxable := "1.000000" },
        { geocode := "US1700000000", tax_auth_id := "", group := "7777",
          item := "1.1", customer := "99", provider := "99",
          transaction := "01", taxable := 1, tax_type := "47",
          tax_cat := "01", effective := "1999-01-01",
          per_taxable_type := "01", percent_taxable := "1.000000" }],
       emptyIssues) := by
  have h :=
    (c2_tax_type_expansion
        (fun g c =>
          if g = "US1700000000" ∧ c = "01" then some ["01", "02", "47"]
          else none)
        { geocode := "US1700000000", tax_auth_id := "", group := "7777",
          item := "1.1", customer := "99", provider := "99",
          transaction := "01", taxable := 1, tax_type := "01",
          tax_cat := "01", effective := "1999-01-01",
          per_taxable_type := "01", percent_taxable := "1.000000" }
        [] "US1700000000" "f" emptyIssues).1
      ["01", "02", "47"] (by decide)
  exact h.trans (by simp [expandRecordsByTaxTypes])

/-- The tax-type table of tests/test_tax_type_hierarchy.py, used as a
concrete witness table. -/
def hierarchyWitnessTable : List ((String × String) × List String) :=
  [(("US1700000000", "01"), ["01", "02", "47"]),
   (("US0800000000", "01"), ["01", "02", "03"]),
   (("US08013A0025", "01"), ["01", "04"])]

/-- C3: the hierarchy fallback returns the child geocode's own entry
whenever the table holds the exact (child, category) key, and otherwise
returns exactly the parent state geocode's lookup result (the list when
the parent has one, nothing when it does not) — never a merge of the
two. -/
theorem c3_tax_type_hierarchy_fallback
    (table : List ((String × String) × List String))
    (geocode taxCat : String) :
    (∀ ts,
      table.lookup (pyUpper (pyStrip geocode), pyUpper (pyStrip taxCat)) =
          some ts →
      getTaxTypesWithHierarchyFallback table geocode taxCat = some ts) ∧
    (table.lookup (pyUpper (pyStrip geocode), pyUpper (pyStrip taxCat)) =
        none →
      getTaxTypesWithHierarchyFallback table geocode taxCat =
        table.lookup (constructParentGeocode (pyUpper (pyStrip geocode)),
          pyUpper (pyStrip taxCat))) := by
  constructor
  · intro ts h
    simp [getTaxTypesWithHierarchyFallback, h]
  · intro h
    by_cases hp :
        constructParentGeocode (pyUpper (pyStrip geocode)) =
          pyUpper (pyStrip geocode)
    · simp [getTaxTypesWithHierarchyFallback, h, hp]
    · simp [getTaxTypesWithHierarchyFallback, h, hp]

/-- Witness for C3 on the test-fixture table: Boulder's city geocode has
its own entry and keeps it (not Colorado's), Chicago's city geocode has
none and takes exactly Illinois' state entry, and an unknown category
resolves to nothing. -/
theorem c3_tax_type_hierarchy_fallback_witness :
    getTaxTypesWithHierarchyFallback hierarchyWitnessTable "US08013A0025"
        "01" = some ["01", "04"] ∧
    getTaxTypesWithHierarchyFallback hierarchyWitnessTable "US17031A0003"
        "01" = some ["01", "02", "47"] ∧
    getTaxTypesWithHierarchyFallback hierarchyWitnessTable "US17031A0003"
        "99" = none :=
  ⟨(c3_tax_type_hierarchy_fallback hierarchyWitnessTable "US08013A0025"
        "01").1 ["01", "04"] (by decide),
   Eq.trans
     ((c3_tax_type_hierarchy_fallback hierarchyWitnessTable "US17031A0003"
        "01").2 (by decide)) (by decide),
   Eq.trans
     ((c3_tax_type_hierarchy_fallback hierarchyWitnessTable "US17031A0003"
        "99").2 (by decide)) (by decide)⟩

/-- C5: parsing a taxable-status text records an error exactly when the
text is non-empty, maps to nothing in the taxable vocabulary, and is not
a known-uncertain value; an uncertain value is skipped silently; and
whenever the text does not map, no status is produced. -/
theorem c5_taxable_status_classification (text filename : String) :
    ((parseTaxableValue text filename).2 ≠ [] ↔
      (text ≠ "" ∧
        taxableMappings.lookup (pyStrip (pyUpper text)) = none ∧
        uncertainTaxableValues.contains (pyStrip (pyUpper text)) = false)) ∧
    (uncertainTaxableValues.contains (pyStrip (pyUpper text)) = true →
      parseTaxableValue text filename = (none, [])) ∧
    ((parseTaxableValue text filename).1 = none ↔
      (text = "" ∨ taxableMappings.lookup (pyStrip (pyUpper text)) = none)) := by
  by_cases ht : text = ""
  · have hr : parseTaxableValue text filename = (none, []) := by
      simp [parseTaxableValue, ht]
    exact ⟨iff_of_false (by simp [hr]) (fun hconj => hconj.1 ht),
      fun _ => hr, iff_of_true (by simp [hr]) (Or.inl ht)⟩
  · cases hl : taxableMappings.lookup (pyStrip (pyUpper text)) with
    | some v =>
      have hr : parseTaxableValue text filename = (some v, []) := by
        simp [parseTaxableValue, ht, hl]
      have hcont :
          uncertainTaxableValues.contains (pyStrip (pyUpper text)) = false := by
        by_contra hc
        have hc' : uncertainTaxableValues.contains (pyStrip (pyUpper text)) =
            true := by
          simpa using hc
        have hmem : pyStrip (pyUpper text) = "DRILL DOWN" ∨
            pyStrip (pyUpper text) = "TO RESEARCH" := by
          simpa [uncertainTaxableValues] using hc'
        have hnone : taxableMappings.lookup (pyStrip (pyUpper text)) = none := by
          rcases hmem with h | h <;> rw [h] <;> decide
        rw [hl] at hnone
        exact Option.noConfusion hnone
      refine ⟨iff_of_false (by simp [hr])
          (fun hconj => Option.noConfusion hconj.2.1),
        fun hu => Bool.noConfusion (hcont.symm.trans hu),
        iff_of_false (by simp [hr]) (fun hor => hor.elim ht
          (fun hn => Option.noConfusion hn))⟩
    | none =>
      by_cases hu :
          uncertainTaxableValues.contains (pyStrip (pyUpper text)) = true
      · have humem : pyStrip (pyUpper text) ∈ uncertainTaxableValues := by
          simpa using hu
        have hr : parseTaxableValue text filename = (none, []) := by
          simp [parseTaxableValue, ht, hl, humem]
        exact ⟨iff_of_false (by simp [hr])
            (fun hconj => Bool.noConfusion (hu.symm.trans hconj.2.2)),
          fun _ => hr, iff_of_true (by simp [hr]) (Or.inr rfl)⟩
      · have hu' :
            uncertainTaxableValues.contains (pyStrip (pyUpper text)) =
              false := by
          simpa using hu
        have hnotmem : pyStrip (pyUpper text) ∉ uncertainTaxableValues := by
          simpa using hu'
        have hr : parseTaxableValue text filename =
            (none, [⟨filename,
              unknownTaxableMsg text (pyStrip (pyUpper text)),
              "UnknownTaxableValueError"⟩]) := by
          simp [parseTaxableValue, ht, hl, hnotmem]
        exact ⟨iff_of_true (by simp [hr]) ⟨ht, rfl, hu'⟩,
          fun hcontr => Bool.noConfusion (hu'.symm.trans hcontr),
          iff_of_true (by simp [hr]) (Or.inr rfl)⟩

/-- Witness for C5: the known-uncertain value "Drill Down" is skipped
with no status and no recorded error. -/
theorem c5_taxable_status_classification_witness :
    parseTaxableValue "Drill Down" "fileX" = (none, []) :=
  (c5_taxable_status_classification "Drill Down" "fileX").2.1 (by decide)

/-- C1: when both segments of a row are valid (taxable status and percent
both parsed), equal treatment triples (taxable, resolved tax category,
percent) yield exactly one emitted template carrying the personal
customer code; a difference in any component yields exactly two, the
business-coded and the personal-coded template. -/
theorem c1_segment_deduplication
    (taxCatLookup : List (String × String)) (row : List String)
    (hm : String → Option Nat) (geocode : String) (config : Config)
    (filename : String) (bt pt : Int) (bp pp : Dec)
    (be pe : List ProcessingError)
    (hid : getCellValue row (hm "current_id") ≠ "")
    (hb : parseTaxableValue (getCellValue row (hm "business_use"))
        filename = (some bt, be))
    (hbp : parsePercentTaxable (getCellValue row (hm "business_percent_tax")) =
        some bp)
    (hp : parseTaxableValue (getCellValue row (hm "personal_use"))
        filename = (some pt, pe))
    (hpp : parsePercentTaxable (getCellValue row (hm "personal_percent_tax")) =
        some pp) :
    ((bt = pt ∧
        getTaxCatCodeMapper taxCatLookup
            (getCellValue row (hm "business_tax_cat")) =
          getTaxCatCodeMapper taxCatLookup
            (getCellValue row (hm "personal_tax_cat")) ∧
        Dec.eqv bp pp = true) →
      emittedTemplates
          (convertRowToRecords taxCatLookup row hm geocode config
            filename).1 =
        [mkSegmentRecord geocode (getCellValue row (hm "current_id"))
          customerPersonal pt
          (getTaxCatCodeMapper taxCatLookup
            (getCellValue row (hm "personal_tax_cat"))) pp config]) ∧
    (¬(bt = pt ∧
        getTaxCatCodeMapper taxCatLookup
            (getCellValue row (hm "business_tax_cat")) =
          getTaxCatCodeMapper taxCatLookup
            (getCellValue row (hm "personal_tax_cat")) ∧
        Dec.eqv bp pp = true) →
      emittedTemplates
          (convertRowToRecords taxCatLookup row hm geocode config
            filename).1 =
        [mkSegmentRecord geocode (getCellValue row (hm "current_id"))
          customerBusiness bt
          (getTaxCatCodeMapper taxCatLookup
            (getCellValue row (hm "business_tax_cat"))) bp config,
         mkSegmentRecord geocode (getCellValue row (hm "current_id"))
          customerPersonal pt
          (getTaxCatCodeMapper taxCatLookup
            (getCellValue row (hm "personal_tax_cat"))) pp config]) := by
  have hmain : convertRowToRecords taxCatLookup row hm geocode config
      filename =
      (if bt = pt ∧
          getTaxCatCodeMapper taxCatLookup
              (getCellValue row (hm "business_tax_cat")) =
            getTaxCatCodeMapper taxCatLookup
              (getCellValue row (hm "personal_tax_cat")) ∧
          Dec.eqv bp pp = true then
        (none,
          some (mkSegmentRecord geocode (getCellValue row (hm "current_id"))
            customerPersonal pt
            (getTaxCatCodeMapper taxCatLookup
              (getCellValue row (hm "personal_tax_cat"))) pp config))
      else
        (some (mkSegmentRecord geocode (getCellValue row (hm "current_id"))
            customerBusiness bt
            (getTaxCatCodeMapper taxCatLookup
              (getCellValue row (hm "business_tax_cat"))) bp config),
          some (mkSegmentRecord geocode (getCellValue row (hm "current_id"))
            customerPersonal pt
            (getTaxCatCodeMapper taxCatLookup
              (getCellValue row (hm "personal_tax_cat"))) pp config)),
        be ++ pe) := by
    simp only [convertRowToRecords, if_neg hid]
    rw [hb, hbp, hp, hpp]
    split_ifs with hc <;> simp [hc]
  constructor
  · intro h
    rw [hmain, if_pos h]
    rfl
  · intro h
    rw [hmain, if_neg h]
    rfl

/-- Witness for C1: a concrete row with identical business and personal
treatment produces exactly one template, the personal-coded one. -/
theorem c1_segment_deduplication_witness :
    emittedTemplates
        (convertRowToRecords [("CatA", "05")]
          ["Tag Level", "1.1", "Taxable", "CatA", "100%", "Taxable", "CatA",
            "100%"]
          (fun s => List.lookup s
            [("admin", 0), ("current_id", 1), ("business_use", 2),
             ("business_tax_cat", 3), ("business_percent_tax", 4),
             ("personal_use", 5), ("personal_tax_cat", 6),
             ("personal_percent_tax", 7)])
          "US1700000000" ⟨"1999-01-01", "Tag Level"⟩ "f").1 =
      [mkSegmentRecord "US1700000000" "1.1" customerPersonal 1
        (getTaxCatCodeMapper [("CatA", "05")] "CatA") ⟨100, 2⟩
        ⟨"1999-01-01", "Tag Level"⟩] := by
  have h :=
    (c1_segment_deduplication [("CatA", "05")]
        ["Tag Level", "1.1", "Taxable", "CatA", "100%", "Taxable", "CatA",
          "100%"]
        (fun s => List.lookup s
          [("admin", 0), ("current_id", 1), ("business_use", 2),
           ("business_tax_cat", 3), ("business_percent_tax", 4),
           ("personal_use", 5), ("personal_tax_cat", 6),
           ("personal_percent_tax", 7)])
        "US1700000000" ⟨"1999-01-01", "Tag Level"⟩ "f" 1 1 ⟨100, 2⟩ ⟨100, 2⟩
        [] [] (by decide) (by decide) (by decide) (by decide) (by decide)).1
      (by decide)
  exact h.trans (by decide)

/-- dropWhile skips a whole prefix all of whose elements satisfy the
predicate. -/
theorem dropWhile_append_of_forall {α : Type} (p : α → Bool)
    (l₁ l₂ : List α) (h : ∀ a ∈ l₁, p a = true) :
    (l₁ ++ l₂).dropWhile p = l₂.dropWhile p := by
  induction l₁ with
  | nil => rfl
  | cons a t ih =>
    have ha : p a = true := h a (by simp)
    simp only [List.cons_append, List.dropWhile_cons, ha, if_true]
    exact ih (fun x hx => h x (by simp [hx]))

/-- The while-loop of _normalize_research_id on a decomposition into a
kept prefix and a maximal all-zero suffix returns exactly the prefix. -/
theorem dropTrailingZeroSegments_eq (keep zeros : List String)
    (hz : ∀ s ∈ zeros, s = "0") (hlast : keep.getLast? ≠ some "0") :
    dropTrailingZeroSegments (keep ++ zeros) = keep := by
  unfold dropTrailingZeroSegments
  rw [List.reverse_append]
  rw [dropWhile_append_of_forall _ _ _
    (fun a ha => by simp [hz a (List.mem_reverse.mp ha)])]
  rcases hk : keep.reverse with _ | ⟨x, xs⟩
  · have : keep = [] := by simpa using congrArg List.reverse hk
    simp [this]
  · have hx : keep.getLast? = some x := by
      rw [← List.head?_reverse, hk]
      rfl
    have hxne : (x == "0") = false := by
      have : x ≠ "0" := fun hcontr => hlast (by rw [hx, hcontr])
      simpa using this
    rw [List.dropWhile_cons, hxne]
    simp only [Bool.false_eq_true, if_false]
    rw [← hk, List.reverse_reverse]

/-- C6: normalization removes exactly the maximal run of trailing "0"
segments (never interior ones); when every segment is "0" the original
(stripped) id is returned unchanged. -/
theorem c6_normalize_trailing_zeros (researchId : String)
    (keep zeros : List String)
    (hne : researchId ≠ "")
    (htrim : pyStrip researchId = researchId)
    (hsplit : pySplitDot researchId = keep ++ zeros)
    (hz : ∀ s ∈ zeros, s = "0")
    (hlast : keep.getLast? ≠ some "0") :
    normalizeResearchId researchId =
      if keep.isEmpty then researchId
      else String.intercalate "." keep := by
  simp only [normalizeResearchId, if_neg hne, htrim, hsplit]
  rw [dropTrailingZeroSegments_eq keep zeros hz hlast]

/-- Witness for C6: the spec's three examples, each via the theorem. -/
theorem c6_normalize_trailing_zeros_witness :
    (normalizeResearchId "1.1.1.4.3.0.0.0" =
      if (["1", "1", "1", "4", "3"] : List String).isEmpty then
        "1.1.1.4.3.0.0.0"
      else String.intercalate "." ["1", "1", "1", "4", "3"]) ∧
    (normalizeResearchId "0.0.0.0" =
      if ([] : List String).isEmpty then "0.0.0.0"
      else String.intercalate "." []) :=
  ⟨c6_normalize_trailing_zeros "1.1.1.4.3.0.0.0" ["1", "1", "1", "4", "3"]
      ["0", "0", "0"] (by decide) (by decide) (by decide) (by decide)
      (by decide),
   c6_normalize_trailing_zeros "0.0.0.0" [] ["0", "0", "0", "0"]
      (by decide) (by decide) (by decide) (by decide) (by decide)⟩

/-- C7 (amended): the composed description equals the " | "-join of the
parents' texts (with the empty-to-space rule) followed by the target's
own text, where the parents are taken at every cut point whose FIRST
ZEROED segment is non-zero (not, as originally claimed, whose kept final
segment is non-zero), shallowest first, excluding the target id. -/
theorem c7_hierarchical_description_amended (itemId : String)
    (lookupDict : List (String × String)) :
    buildHierarchicalDescription itemId lookupDict =
      amendedHierarchicalDescription itemId lookupDict := by
  have hpar : parseHierarchicalId itemId = amendedParentsNextSegment itemId := by
    simp only [parseHierarchicalId, amendedParentsNextSegment]
    refine congrArg (fun f => List.filterMap f (List.range' 1 7))
      (funext fun k => ?_)
    beta_reduce
    by_cases h0 : (padTo8Segments (pySplitDot itemId)).getD k "" = "0"
    · rw [if_pos h0, if_neg (fun hc => hc.1 h0)]
    · by_cases h1 :
          String.intercalate "."
            ((padTo8Segments (pySplitDot itemId)).take k ++
              List.replicate (8 - k) "0") = itemId
      · rw [if_neg h0, if_pos h1, if_neg (fun hc => hc.2 h1)]
      · rw [if_neg h0, if_neg h1, if_pos ⟨h0, h1⟩]
  simp only [buildHierarchicalDescription, amendedHierarchicalDescription,
    hpar]

/-- C9 (amended): the emitted Record CSV is exactly the claimed format
minus quote escaping: header line then one line per record, 13 fields in
the claimed order, each header name and each field value wrapped in
double quotes with the value emitted verbatim. -/
theorem c9_record_csv_format_amended (records : List Record) :
    createCsvContent records = amendedCsvContent records := by
  have hh : csvHeaders =
      claimHeaderNames.map (fun h => "\"" ++ h ++ "\"") := by decide
  have hr : ∀ r : Record,
      toCsvRow r = (recordFieldValues r).map (fun v => "\"" ++ v ++ "\"") := by
    intro r
    simp [toCsvRow, recordFieldValues, quoteVerbatim]
  simp only [createCsvContent, amendedCsvContent, hh, hr]
